import Mathlib

/-!
Shallow embedding of the tropennacht_app repository (a FastAPI app that
renders a "tropical nights" calendar heatmap) and proofs about it.

Source files embedded:
  * src/tropennacht_app/generate_calendar.py (aggregation, rendering, cache)
  * src/tropennacht_app/tropennacht_db.py    (city registry operations)
  * src/tropennacht_app/main.py              (city detail route, static catalog)

Conventions of the embedding:
  * Temperatures and coordinates are modelled as rationals (Python floats
    in the source carry exact decimal literals; no float rounding is
    relevant to any statement proved here).
  * Python exceptions are modelled with `Except PyErr`; an uncaught
    exception is an `Except.error` that propagates through `match`es the
    way Python propagates it through the call stack.
  * Timestamps from the weather source are a calendar date plus an hour;
    chronological order on real calendar dates coincides with
    lexicographic order on (year, month, day), which is how comparisons
    are modelled.
-/

/-- Python exception kinds that can arise in the embedded code paths. -/
inductive PyErr where
  | keyError
  | valueError
  | typeError
  | stopIteration
  | connectionError
deriving DecidableEq

/-- A calendar date (year, month, day).  Also used for the value of
`datetime.now()` truncated to its date components, as the source does. -/
structure Date where
  year : Int
  month : Nat
  day : Nat
deriving DecidableEq

/-- `datetime` leap-year rule (proleptic Gregorian). -/
def isLeapYear (y : Int) : Bool :=
  (y % 4 == 0 && y % 100 != 0) || y % 400 == 0

/-- Number of days in a month, as `datetime` validates it. -/
def daysInMonth (y : Int) (m : Nat) : Nat :=
  if m = 2 then (if isLeapYear y then 29 else 28)
  else if m = 4 ∨ m = 6 ∨ m = 9 ∨ m = 11 then 30
  else 31

/-- Validity of `datetime(year, month, day)`: Python's `datetime` accepts
years `MINYEAR = 1` through `MAXYEAR = 9999` and month/day within range,
and raises `ValueError` otherwise. -/
def isValidDate (y : Int) (m d : Nat) : Bool :=
  1 ≤ y && y ≤ 9999 && 1 ≤ m && m ≤ 12 && 1 ≤ d && d ≤ daysInMonth y m

/-- Successor date (the effect of `date + timedelta(days=1)`). -/
def Date.next (d : Date) : Date :=
  if d.day < daysInMonth d.year d.month then ⟨d.year, d.month, d.day + 1⟩
  else if d.month < 12 then ⟨d.year, d.month + 1, 1⟩
  else ⟨d.year + 1, 1, 1⟩

/-- Strict chronological order on dates (lexicographic on year, month, day;
this agrees with real chronological order for calendar dates). -/
def Date.ltb (a b : Date) : Bool :=
  decide (a.year < b.year) ||
    (a.year == b.year &&
      (decide (a.month < b.month) ||
        (a.month == b.month && decide (a.day < b.day))))

/-- Days-since-epoch ordinal of a date (standard civil-calendar formula);
used only to size the day iteration of `pd.date_range`. -/
def Date.toOrdinal (d : Date) : Int :=
  let y : Int := if d.month ≤ 2 then d.year - 1 else d.year
  let era : Int := (if 0 ≤ y then y else y - 399) / 400
  let yoe : Int := y - era * 400
  let mp : Int := ((d.month : Int) + 9) % 12
  let doy : Int := (153 * mp + 2) / 5 + (d.day : Int) - 1
  let doe : Int := yoe * 365 + yoe / 4 - yoe / 100 + doy
  era * 146097 + doe - 719468

/-- `pd.date_range(start=start, end=stop, freq="D")` for midnight-aligned
endpoints: the list of consecutive dates from `start` to `stop`, inclusive. -/
def dateRange (start stop : Date) : List Date :=
  (List.range (stop.toOrdinal - start.toOrdinal + 1).toNat).map
    (fun k => Date.next^[k] start)

/-- An hourly timestamp: a date plus the hour of day. -/
structure Timestamp where
  date : Date
  hour : Nat
deriving DecidableEq

/-- Chronological order on hourly timestamps. -/
def Timestamp.leb (a b : Timestamp) : Bool :=
  Date.ltb a.date b.date || (a.date == b.date && decide (a.hour ≤ b.hour))

/-- One hourly observation row of the DataFrame returned by
`Hourly(berlin, start, end).fetch()`: its DatetimeIndex entry and its
`temp` column value. -/
structure Obs where
  ts : Timestamp
  temp : ℚ
deriving DecidableEq

/-- `data.loc[start_of_day:end_of_day]`: label slicing of a sorted
DatetimeIndex is inclusive of both endpoints, so it keeps the rows with
`start_of_day <= ts <= start_of_day + 1 day`. -/
def sliceDay (data : List Obs) (d : Date) : List Obs :=
  data.filter (fun o =>
    Timestamp.leb ⟨d, 0⟩ o.ts && Timestamp.leb o.ts ⟨Date.next d, 0⟩)

/-- `is_tropical_night(df, date)` from generate_calendar.py lines 37-40:
`day_data = df.loc[date]` is an exact-match lookup of the midnight
timestamp `date` in the DatetimeIndex (a `pd.Timestamp` label does exact
matching, not partial-day indexing), raising `KeyError` when no row has
exactly that timestamp; then `day_data["temp"].min() >= 20`. -/
def is_tropical_night (df : List Obs) (date : Date) : Except PyErr Bool :=
  match df.filter (fun o => o.ts == (⟨date, 0⟩ : Timestamp)) with
  | [] => .error .keyError
  | o :: rest => .ok (decide (20 ≤ (rest.map Obs.temp).foldl min o.temp))

/-- One iteration of the day loop (lines 46-51): slice the fetched data to
the day, then classify via `is_tropical_night`. -/
def classifyDay (data : List Obs) (d : Date) : Except PyErr Bool :=
  is_tropical_night (sliceDay data d) d

/-- One row of `results_df`: the date and its boolean classification. -/
structure DayResult where
  date : Date
  tropical_night : Bool
deriving DecidableEq

/-- The `for date in date_range:` loop (lines 46-51): classify every day of
the range in order; the first uncaught exception aborts the computation. -/
def buildResults (data : List Obs) (dates : List Date) :
    Except PyErr (List DayResult) :=
  match dates with
  | [] => .ok []
  | d :: rest =>
    match classifyDay data d with
    | .error e => .error e
    | .ok b =>
      match buildResults data rest with
      | .error e => .error e
      | .ok tail => .ok (⟨d, b⟩ :: tail)

/-- `results_df["tropical_night"].astype(int)`: the 0/1 value column. -/
def dayValue (r : DayResult) : Nat :=
  if r.tropical_night then 1 else 0

/-- `results_df.groupby("year")["value"].sum()` (lines 57-59): for each
distinct year occurring in the results, the sum of the 0/1 values of the
rows of that year.  (pandas emits the groups sorted by key; the order of
the rows is irrelevant to everything proved here.) -/
def annualSummary (results : List DayResult) : List (Int × Nat) :=
  ((results.map (fun r => r.date.year)).dedup).map
    (fun y => (y, ((results.filter (fun r => r.date.year == y)).map dayValue).sum))

/-- The meaningful content of the HTML fragment produced by
`plotly_calplot.calplot` plus the layout and yearly labels (lines 61-102):
the (date, value) series driving the heatmap, the annual-summary table
embedded as a layout annotation, and one textual label per year. -/
structure PlotHtml where
  series : List (Date × Nat)
  summaryTable : List (Int × Nat)
  yearLabels : List String
deriving DecidableEq

/-- Rendering step (lines 53-102): build the calplot series from the
results, attach the annual summary and the per-year labels. -/
def render (results : List DayResult) : PlotHtml :=
  { series := results.map (fun r => (r.date, dayValue r))
    summaryTable := annualSummary results
    yearLabels := (annualSummary results).map
      (fun p => toString p.1 ++ ": " ++ toString p.2 ++ " Tropical Nights") }

/-- A meteostat geographic point. -/
structure Point where
  lat : ℚ
  lon : ℚ
deriving DecidableEq

/-- Line 27: `berlin = Point(52.52, 13.405)` — the point actually fetched,
hardcoded regardless of the function's arguments. -/
def berlin : Point := ⟨52.52, 13.405⟩

/-- Line 28-30: `start = datetime(datetime.now().year - 5,
datetime.now().month, datetime.now().day)`; `datetime` raises `ValueError`
when the shifted date is invalid. -/
def windowStart (today : Date) : Except PyErr Date :=
  if isValidDate (today.year - 5) today.month today.day then
    .ok ⟨today.year - 5, today.month, today.day⟩
  else .error .valueError

/-- The body of `generate_tropical_nights_plot(city_name, lat, lon)`
(lines 19-104).  The weather source (`Hourly(...).fetch()` replayed
through the vcr cassette) is passed in as `fetch`; `today` is
`datetime.now()`'s date.  Note that the body never reads `city_name`,
`lat` or `lon`: it fetches the hardcoded `berlin` point. -/
def generate_tropical_nights_plot
    (fetch : Point → Date → Date → Except PyErr (List Obs))
    (today : Date) (city_name : Option String) (lat lon : Option ℚ) :
    Except PyErr PlotHtml :=
  match windowStart today with
  | .error e => .error e
  | .ok start =>
    let stop : Date := ⟨today.year, today.month, today.day⟩
    match fetch berlin start stop with
    | .error e => .error e
    | .ok data =>
      match buildResults data (dateRange start stop) with
      | .error e => .error e
      | .ok results => .ok (render results)

/-- `cachetools` key for `@cached(cache)` on
`generate_tropical_nights_plot(city_name, lat, lon)`: the argument triple. -/
abbrev CacheKey := Option String × Option ℚ × Option ℚ

/-- One stored entry of the `TTLCache`: key, cached value, and its expiry
instant (insertion time plus the ttl).  The cache's monotonic timer is
measured in seconds; instants are modelled as integers. -/
structure CacheItem (V : Type) where
  key : CacheKey
  val : V
  expire : Int
deriving DecidableEq

/-- Line 15: `ttl=60 * 60 * 24` seconds. -/
def ttl : Int := 60 * 60 * 24

/-- Semantics of one call through the `@cached(cache)` decorator over a
`TTLCache(maxsize=inf, ttl)` (generate_calendar.py lines 15-18): if an
unexpired entry for the key exists, return its value without running the
body; otherwise run the body, cache the value on success (exceptions are
re-raised and never cached), stamping the expiry `now + ttl`.  Returns the
call's outcome, the new cache contents, and how many times the decorated
body (with its expensive fetch) ran during the call. -/
def cachedCall {V : Type} [DecidableEq V] (entries : List (CacheItem V))
    (now : Int) (key : CacheKey) (compute : Except PyErr V) :
    Except PyErr V × List (CacheItem V) × Nat :=
  match entries.find? (fun e => decide (e.key = key) && decide (now < e.expire)) with
  | some e => (.ok e.val, entries, 0)
  | none =>
    match compute with
    | .ok v => (.ok v, ⟨key, v, now + ttl⟩ :: entries, 1)
    | .error err => (.error err, entries, 1)

/-- Python `uuid.UUID` values compare by their 128-bit integer value;
model them by that integer. -/
abbrev UUID := Nat

/-- One row of the `public.users_cities` table (tropennacht_db.py
lines 33-39). -/
structure DBRow where
  id : UUID
  user_id : UUID
  city : String
deriving DecidableEq

/-- One element of the list returned by `get_cities_for_user`: the dict
`{"id": str(city.id), "city": city.city}`. -/
structure CityEntry where
  id : String
  city : String
deriving DecidableEq

/-- `get_cities_for_user(user_id)` (tropennacht_db.py lines 94-122).
`parse` is the outcome of `uuid.UUID(user_id)`; `queryAll uid` the outcome
of `session.query(...).filter_by(user_id=uid).all()`.  The `try/except`
structure is desugared: the `except ValueError` branch catches a parse
failure and returns `[]`; the broad `except Exception` branch catches a
query failure, rolls back, and returns `[]`; an empty query result prints
and returns `[]`; otherwise the rows are mapped to id/city dicts.  The
function therefore never lets an exception escape to the caller. -/
def get_cities_for_user (parse : Except PyErr UUID)
    (queryAll : UUID → Except PyErr (List DBRow)) :
    Except PyErr (List CityEntry) :=
  match parse with
  | .error _ => .ok []
  | .ok uid =>
    match queryAll uid with
    | .error _ => .ok []
    | .ok rows =>
      if rows.isEmpty then .ok []
      else .ok (rows.map (fun r => { id := toString r.id, city := r.city }))

/-- `delete_user_city_by_id(user_id, city_id)` (tropennacht_db.py
lines 65-90), described by its effect on the table contents.  `parseUser`
and `parseCity` are the outcomes of the two `uuid.UUID(...)` parses (a
failure lands in `except ValueError`, leaving the table untouched).  The
query `filter_by(id=city_id, user_id=user_id).first()` takes the first row
matching both columns; if found it is deleted and committed, otherwise the
function prints and changes nothing. -/
def delete_user_city_by_id (reg : List DBRow)
    (parseUser parseCity : Except PyErr UUID) : List DBRow :=
  match parseUser, parseCity with
  | .ok uid, .ok cid =>
    (match reg.find? (fun r => r.id == cid && r.user_id == uid) with
     | some entry => reg.erase entry
     | none => reg)
  | _, _ => reg

/-- One entry of the static `city_options` catalog (main.py
lines 217-315). -/
structure CityOption where
  name : String
  lat : ℚ
  lon : ℚ
deriving DecidableEq

set_option maxHeartbeats 2000000 in
/-- The static city catalog, transcribed from main.py lines 217-315
(duplicate entries included as in the source). -/
def city_options : List CityOption := [
  ⟨"Abu Dhabi", 24.4539, 54.3773⟩,
  ⟨"Addis Ababa", 9.03, 38.74⟩,
  ⟨"Amman", 31.9454, 35.9284⟩,
  ⟨"Amsterdam", 52.3676, 4.9041⟩,
  ⟨"Athens", 37.9838, 23.7275⟩,
  ⟨"Athens", 37.9838, 23.7275⟩,
  ⟨"Bangkok", 13.7563, 100.5018⟩,
  ⟨"Barcelona", 41.3851, 2.1734⟩,
  ⟨"Beijing", 39.9042, 116.4074⟩,
  ⟨"Belgrade", 44.7866, 20.4489⟩,
  ⟨"Berlin", 52.52, 13.405⟩,
  ⟨"Bogotá", 4.7110, -74.0721⟩,
  ⟨"Brisbane", -27.4698, 153.0251⟩,
  ⟨"Brussels", 50.8503, 4.3517⟩,
  ⟨"Bucharest", 44.4268, 26.1025⟩,
  ⟨"Budapest", 47.4979, 19.0402⟩,
  ⟨"Buenos Aires", -34.6037, -58.3816⟩,
  ⟨"Cairo", 30.0444, 31.2357⟩,
  ⟨"Cape Town", -33.9249, 18.4241⟩,
  ⟨"Casablanca", 33.5731, -7.5898⟩,
  ⟨"Chicago", 41.8781, -87.6298⟩,
  ⟨"Copenhagen", 55.6761, 12.5683⟩,
  ⟨"Delhi", 28.6139, 77.2090⟩,
  ⟨"Doha", 25.276987, 51.521569⟩,
  ⟨"Doha", 25.276987, 51.521569⟩,
  ⟨"Dubai", 25.276987, 55.296249⟩,
  ⟨"Dublin", 53.3498, -6.2603⟩,
  ⟨"Edinburgh", 55.9533, -3.1883⟩,
  ⟨"Florence", 43.7696, 11.2558⟩,
  ⟨"Hanoi", 21.0285, 105.8542⟩,
  ⟨"Havana", 23.1136, -82.3666⟩,
  ⟨"Helsinki", 60.1695, 24.9354⟩,
  ⟨"Hong Kong", 22.3193, 114.1694⟩,
  ⟨"Istanbul", 41.0082, 28.9784⟩,
  ⟨"Istanbul", 41.0082, 28.9784⟩,
  ⟨"Jakarta", -6.2088, 106.8456⟩,
  ⟨"Jerusalem", 31.7683, 35.2137⟩,
  ⟨"Johannesburg", -26.2041, 28.0473⟩,
  ⟨"Kiev", 50.4501, 30.5234⟩,
  ⟨"Kigali", -1.9579, 30.1127⟩,
  ⟨"Kraków", 50.0647, 19.9450⟩,
  ⟨"Kuala Lumpur", 3.1390, 101.6869⟩,
  ⟨"Kyoto", 35.0116, 135.7681⟩,
  ⟨"Lagos", 6.5244, 3.3792⟩,
  ⟨"Las Vegas", 36.1699, -115.1398⟩,
  ⟨"Lima", -12.0464, -77.0428⟩,
  ⟨"Lisbon", 38.7223, -9.1393⟩,
  ⟨"Ljubljana", 46.0569, 14.5058⟩,
  ⟨"London", 51.5074, -0.1278⟩,
  ⟨"Los Angeles", 34.0522, -118.2437⟩,
  ⟨"Madrid", 40.4168, -3.7038⟩,
  ⟨"Manila", 14.5995, 120.9842⟩,
  ⟨"Marrakesh", 31.6295, -7.9811⟩,
  ⟨"Melbourne", -37.8136, 144.9631⟩,
  ⟨"Mexico City", 19.4326, -99.1332⟩,
  ⟨"Miami", 25.7617, -80.1918⟩,
  ⟨"Milan", 45.4642, 9.1900⟩,
  ⟨"Monaco", 43.7384, 7.4246⟩,
  ⟨"Montreal", 45.5017, -73.5673⟩,
  ⟨"Moscow", 55.7558, 37.6173⟩,
  ⟨"Mumbai", 19.0760, 72.8777⟩,
  ⟨"Muscat", 23.5880, 58.3829⟩,
  ⟨"Naples", 40.8518, 14.2681⟩,
  ⟨"New York", 40.7128, -74.006⟩,
  ⟨"Nice", 43.7102, 7.2620⟩,
  ⟨"Osaka", 34.6937, 135.5023⟩,
  ⟨"Oslo", 59.9139, 10.7522⟩,
  ⟨"Paris", 48.8566, 2.3522⟩,
  ⟨"Phnom Penh", 11.5564, 104.9282⟩,
  ⟨"Prague", 50.0755, 14.4378⟩,
  ⟨"Reykjavik", 64.1466, -21.9426⟩,
  ⟨"Rio de Janeiro", -22.9068, -43.1729⟩,
  ⟨"Riyadh", 24.7136, 46.6753⟩,
  ⟨"Rome", 41.9028, 12.4964⟩,
  ⟨"Saint Petersburg", 59.9311, 30.3609⟩,
  ⟨"San Francisco", 37.7749, -122.4194⟩,
  ⟨"Santiago", -33.4489, -70.6693⟩,
  ⟨"São Paulo", -23.5505, -46.6333⟩,
  ⟨"Sarajevo", 43.8563, 18.4131⟩,
  ⟨"Seoul", 37.5665, 126.9780⟩,
  ⟨"Shanghai", 31.2304, 121.4737⟩,
  ⟨"Singapore", 1.3521, 103.8198⟩,
  ⟨"Sofia", 42.6977, 23.3219⟩,
  ⟨"Stockholm", 59.3293, 18.0686⟩,
  ⟨"Sydney", -33.8688, 151.2093⟩,
  ⟨"Tbilisi", 41.7151, 44.8271⟩,
  ⟨"Tehran", 35.6892, 51.3890⟩,
  ⟨"Tel Aviv", 32.0853, 34.7818⟩,
  ⟨"Tokyo", 35.6762, 139.6503⟩,
  ⟨"Toronto", 43.651070, -79.347015⟩,
  ⟨"Vancouver", 49.2827, -123.1207⟩,
  ⟨"Venice", 45.4408, 12.3155⟩,
  ⟨"Vienna", 48.2082, 16.3738⟩,
  ⟨"Warsaw", 52.2297, 21.0122⟩,
  ⟨"Yerevan", 40.1792, 44.4991⟩,
  ⟨"Zurich", 47.3769, 8.5417⟩]

/-- The page returned by the city detail route on success: the path's
city id and the embedded plot fragment. -/
structure Response where
  city_id : String
  plot_html : PlotHtml
deriving DecidableEq

/-- The `GET /city/{city_id}` handler `city` (main.py lines 157-182).
`selected_city = next((c for c in city_list if c["id"] == city_id), None)`
has a default, so a missing id yields `None` — and the subsequent
subscript `selected_city["city"]` then raises `TypeError`.  The catalog
lookup `next((c for c in city_options if c["name"] == selected_city["city"]),)`
is called WITHOUT a default, so a name absent from the catalog raises
`StopIteration`.  On success the handler calls the plot function with
`lat=`/`lon=` keywords only (`city_name` stays `None`). -/
def city_route (parse : Except PyErr UUID)
    (queryAll : UUID → Except PyErr (List DBRow)) (city_id : String)
    (fetch : Point → Date → Date → Except PyErr (List Obs)) (today : Date) :
    Except PyErr Response :=
  match get_cities_for_user parse queryAll with
  | .error e => .error e
  | .ok city_list =>
    match city_list.find? (fun c => c.id == city_id) with
    | none => .error .typeError
    | some selected_city =>
      match city_options.find? (fun o => o.name == selected_city.city) with
      | none => .error .stopIteration
      | some opt =>
        match generate_tropical_nights_plot fetch today none
            (some opt.lat) (some opt.lon) with
        | .error e => .error e
        | .ok plot_html => .ok { city_id := city_id, plot_html := plot_html }

/-- Concrete weather data for claim C1: a single observation on
2024-07-01 at midnight (25°C); 2024-07-02 has zero observations. -/
def obsMissingDay : List Obs := [⟨⟨⟨2024, 7, 1⟩, 0⟩, 25⟩]

/-- Claim C1: the claim says a day of the window with zero temperature
observations is absent from the output series and does not crash the
computation.  The code instead crashes: iterating the two-day range
[2024-07-01, 2024-07-02] over data that has no observation on 2024-07-02
makes `df.loc[date]` raise `KeyError`, aborting the whole loop, so the
claim is false of the code. -/
theorem buildResults_keyError_on_missing_day :
    buildResults obsMissingDay [⟨2024, 7, 1⟩, ⟨2024, 7, 2⟩]
      = .error .keyError ∧
    obsMissingDay.all (fun o => !(o.ts.date == (⟨2024, 7, 2⟩ : Date))) = true := by
  exact ⟨rfl, rfl⟩

/-- Concrete weather data for claim C5: 2024-07-01 has a 21°C observation
at midnight and a 15°C observation at 03:00. -/
def obsMidnightOnly : List Obs :=
  [⟨⟨⟨2024, 7, 1⟩, 0⟩, 21⟩, ⟨⟨⟨2024, 7, 1⟩, 3⟩, 15⟩]

/-- Claim C5: the claim says a day with any observation below 20°C
classifies as non-tropical.  The code classifies 2024-07-01 as tropical
(`.ok true`) although the day has a 15°C observation, because
`df.loc[date]` selects only the row whose timestamp is exactly midnight,
so the minimum is taken over that single row — contradicting the claim
and the function's own docstring. -/
theorem classifyDay_uses_midnight_row_only :
    classifyDay obsMidnightOnly ⟨2024, 7, 1⟩ = .ok true ∧
    obsMidnightOnly.any
      (fun o => o.ts.date == (⟨2024, 7, 1⟩ : Date) && decide (o.temp < 20)) = true := by
  exact ⟨rfl, rfl⟩

/-- Claim C2: the claim says a stored city name with no catalog entry
yields a handled `CityNotInCatalog` state.  The code instead crashes: for
a user whose stored row is (id 1, city "Atlantis"), requesting that city
makes the catalog lookup `next(...)` — called without a default — raise
`StopIteration`, which nothing handles. -/
theorem city_route_crashes_on_unknown_city :
    city_route (.ok 7) (fun _ => .ok [⟨1, 7, "Atlantis"⟩]) "1"
      (fun _ _ _ => .ok []) ⟨2025, 10, 12⟩ = .error .stopIteration := by
  rfl

/-- Claim C3: the claim says a failed weather fetch is converted to a
labeled `DataSourceUnavailable` condition and the route surfaces a
user-visible failure state.  The code has no error handling at all: a raw
`ConnectionError` from the fetch propagates unchanged through
`generate_tropical_nights_plot` and through the route handler, crashing
the request for the valid catalog city "Berlin". -/
theorem city_route_propagates_raw_fetch_error :
    city_route (.ok 7) (fun _ => .ok [⟨1, 7, "Berlin"⟩]) "1"
      (fun _ _ _ => .error .connectionError) ⟨2025, 10, 12⟩
      = .error .connectionError := by
  rfl

/-- An arbitrary concrete weather source used in the claim C4
counterexample. -/
def fetchSample : Point → Date → Date → Except PyErr (List Obs) :=
  fun _ _ _ => .ok [⟨⟨⟨2025, 10, 11⟩, 0⟩, 25⟩]

/-- Claim C4 counterexample: the claim says the fragment is computed from
the coordinates passed in, so that two cities with different coordinates
can produce different fragments.  Calling the plot function with London's
coordinates (51.5074, -0.1278) and with Tokyo's (35.6762, 139.6503) —
which differ — returns literally the same result for the same source and
invocation date: the body never reads `lat`/`lon` and always fetches the
hardcoded `berlin` point. -/
theorem generate_same_output_london_tokyo :
    generate_tropical_nights_plot fetchSample ⟨2025, 10, 12⟩ none
        (some 51.5074) (some (-0.1278)) =
      generate_tropical_nights_plot fetchSample ⟨2025, 10, 12⟩ none
        (some 35.6762) (some 139.6503) ∧
    ((51.5074 : ℚ), (-0.1278 : ℚ)) ≠ ((35.6762 : ℚ), (139.6503 : ℚ)) := by
  refine ⟨rfl, ?_⟩
  intro h
  have h1 : (51.5074 : ℚ) = 35.6762 := congrArg Prod.fst h
  norm_num at h1

/-- Claim C4 (amended): the output of `generate_tropical_nights_plot` is
independent of its `city_name`, `lat` and `lon` arguments — they act only
as the memoisation key; the fetched point is always the hardcoded
(52.52, 13.405), so two cities with different coordinates always produce
the same fragment for the same source and invocation date. -/
theorem generate_output_ignores_args
    (fetch : Point → Date → Date → Except PyErr (List Obs)) (today : Date)
    (n n' : Option String) (la lo la' lo' : Option ℚ) :
    generate_tropical_nights_plot fetch today n la lo =
      generate_tropical_nights_plot fetch today n' la' lo' := rfl

/-- Claim C9 counterexample: the claim says the window-start construction
succeeds for every possible invocation date.  2024-02-29 is a real
(valid) date, but `datetime(2024 - 5, 2, 29)` raises `ValueError`, since
2019 is not a leap year. -/
theorem windowStart_fails_on_leap_day :
    isValidDate 2024 2 29 = true ∧
    windowStart ⟨2024, 2, 29⟩ = .error .valueError := by
  exact ⟨rfl, rfl⟩

/-- Claim C9 (amended): the window-start construction
`datetime(today.year - 5, today.month, today.day)` succeeds for every
valid invocation date except February 29 (five years earlier is never a
leap year) and dates whose year is below 6 (the shifted year would fall
below `datetime.MINYEAR`). -/
theorem windowStart_ok_off_leap_day (t : Date)
    (hv : isValidDate t.year t.month t.day = true) (hy : 6 ≤ t.year)
    (hfeb : ¬(t.month = 2 ∧ t.day = 29)) :
    windowStart t = .ok ⟨t.year - 5, t.month, t.day⟩ := by
  have hv' := hv
  unfold isValidDate at hv'
  simp only [Bool.and_eq_true, decide_eq_true_eq] at hv'
  obtain ⟨⟨⟨⟨⟨h1, h2⟩, h3⟩, h4⟩, h5⟩, h6⟩ := hv'
  have hvalid : isValidDate (t.year - 5) t.month t.day = true := by
    unfold isValidDate
    simp only [Bool.and_eq_true, decide_eq_true_eq]
    refine ⟨⟨⟨⟨⟨by omega, by omega⟩, h3⟩, h4⟩, h5⟩, ?_⟩
    by_cases hm : t.month = 2
    · have hd29 : t.day ≠ 29 := fun h => hfeb ⟨hm, h⟩
      have hdim : ∀ z : Int, daysInMonth z 2 = if isLeapYear z then 29 else 28 := by
        intro z
        simp [daysInMonth]
      rw [hm] at h6 ⊢
      rw [hdim] at h6 ⊢
      have h28 : t.day ≤ 28 := by
        by_cases hL : isLeapYear t.year = true
        · simp [hL] at h6
          omega
        · simp [hL] at h6
          omega
      by_cases hL : isLeapYear (t.year - 5) = true
      · simp [hL]
        omega
      · simp [hL]
        omega
    · have heq : daysInMonth (t.year - 5) t.month = daysInMonth t.year t.month := by
        unfold daysInMonth
        rw [if_neg hm, if_neg hm]
      omega
  unfold windowStart
  rw [hvalid]
  simp

/-- Witness for `windowStart_ok_off_leap_day` at the concrete invocation
date 2025-10-12. -/
theorem windowStart_ok_off_leap_day_witness :
    windowStart ⟨2025, 10, 12⟩ = .ok ⟨2020, 10, 12⟩ :=
  windowStart_ok_off_leap_day ⟨2025, 10, 12⟩ (by decide) (by decide)
    (by decide)

/-- Claim C7: deleting a (user, city id) pair for which no registry row
has that id AND that owner — including a row with that id owned by a
different user — leaves the registry contents unchanged, with no error. -/
theorem delete_user_city_noop_when_not_owned (reg : List DBRow)
    (uid cid : UUID) (h : ∀ r ∈ reg, ¬(r.id = cid ∧ r.user_id = uid)) :
    delete_user_city_by_id reg (.ok uid) (.ok cid) = reg := by
  have hf : reg.find? (fun r => r.id == cid && r.user_id == uid) = none := by
    rw [List.find?_eq_none]
    intro r hr
    simpa [Bool.and_eq_true, beq_iff_eq] using h r hr
  simp [delete_user_city_by_id, hf]

/-- Witness for `delete_user_city_noop_when_not_owned`: the registry holds
one row (city id 5) owned by user 7; user 9 requests deletion of city
id 5 and the registry is unchanged. -/
theorem delete_user_city_noop_when_not_owned_witness :
    delete_user_city_by_id [⟨5, 7, "Berlin"⟩] (.ok 9) (.ok 5)
      = [⟨5, 7, "Berlin"⟩] :=
  delete_user_city_noop_when_not_owned [⟨5, 7, "Berlin"⟩] 9 5 (by decide)

/-- Summing the 0/1 value column over the rows of one year counts the
rows of that year classified tropical. -/
theorem sum_dayValue_eq_count (y : Int) (l : List DayResult) :
    ((l.filter (fun r => r.date.year == y)).map dayValue).sum
      = (l.filter (fun r => r.date.year == y && r.tropical_night)).length := by
  induction l with
  | nil => rfl
  | cons r t ih =>
    simp only [List.filter_cons]
    by_cases hy : r.date.year = y
    · by_cases ht : r.tropical_night
      · simp [hy, ht, dayValue, ih]
        omega
      · simp [hy, ht, dayValue, ih]
    · simp [hy, ih]

/-- Claim C8: every (year, total) pair of the rendered annual summary has
its total equal to the number of days of that calendar year in the output
series classified as tropical nights. -/
theorem annualSummary_total_counts_tropical_days (results : List DayResult)
    (y : Int) (c : Nat) (h : (y, c) ∈ (render results).summaryTable) :
    c = (results.filter (fun r => r.date.year == y && r.tropical_night)).length := by
  have h' : (y, c) ∈ annualSummary results := h
  unfold annualSummary at h'
  rcases List.mem_map.mp h' with ⟨y', _, heq⟩
  have hy : y' = y := congrArg Prod.fst heq
  have hc : ((results.filter (fun r => r.date.year == y')).map dayValue).sum = c :=
    congrArg Prod.snd heq
  rw [← hc, hy, sum_dayValue_eq_count]

/-- Concrete output series for the claim C8 witness: two days of 2020,
one tropical and one not. -/
def resultsSample : List DayResult :=
  [⟨⟨2020, 6, 1⟩, true⟩, ⟨⟨2020, 6, 2⟩, false⟩]

/-- Witness for `annualSummary_total_counts_tropical_days`: the rendered
summary of `resultsSample` reports (2020, 1), and 1 is the count of
tropical days of 2020 in the series. -/
theorem annualSummary_total_counts_tropical_days_witness :
    1 = (resultsSample.filter
      (fun r => r.date.year == 2020 && r.tropical_night)).length :=
  annualSummary_total_counts_tropical_days resultsSample 2020 1 (by decide)

/-- Claim C10: `get_cities_for_user` is total toward its caller — it
always returns a plain list (never lets an exception escape), and it
returns the empty list both when the user id fails to parse as a UUID and
when the underlying query fails. -/
theorem get_cities_for_user_total (parse : Except PyErr UUID)
    (queryAll : UUID → Except PyErr (List DBRow)) :
    (∃ l, get_cities_for_user parse queryAll = .ok l) ∧
    (∀ e, parse = .error e → get_cities_for_user parse queryAll = .ok []) ∧
    (∀ uid e, parse = .ok uid → queryAll uid = .error e →
      get_cities_for_user parse queryAll = .ok []) := by
  refine ⟨?_, ?_, ?_⟩
  · rcases parse with e | uid
    · exact ⟨[], rfl⟩
    · rcases hq : queryAll uid with e | rows
      · exact ⟨[], by simp only [get_cities_for_user, hq]⟩
      · by_cases hr : rows.isEmpty
        · exact ⟨[], by simp only [get_cities_for_user, hq, hr, if_pos]⟩
        · exact ⟨rows.map (fun r => { id := toString r.id, city := r.city }),
            by simp only [get_cities_for_user, hq, hr, if_neg, Bool.false_eq_true,
              not_false_iff]⟩
  · rintro e rfl
    rfl
  · rintro uid e rfl hq
    simp only [get_cities_for_user, hq]

/-- Witness for `get_cities_for_user_total`: a malformed user id yields
the empty list. -/
theorem get_cities_for_user_total_witness :
    get_cities_for_user (.error .valueError) (fun _ => .ok []) = .ok [] :=
  (get_cities_for_user_total (.error .valueError) (fun _ => .ok [])).2.1
    .valueError rfl

/-- Cache contents for the claim C6 counterexample: one entry for the key
(city_name=None, lat=52, lon=13) inserted at timer 0, so expiring at
timer 86400. -/
def staleCacheSample : List (CacheItem String) :=
  [⟨(none, some 52, some 13), "old fragment", 86400⟩]

/-- Claim C6 counterexample: the claim says every pair of identical-keyed
calls less than 24 hours apart returns byte-identical output.  Against a
cache already holding an entry that expires at timer 86400: a call at
timer 86300 hits it and returns "old fragment"; a second identical-keyed
call at timer 86500 — only 200 seconds later, well within 24 hours — finds
the entry expired, recomputes, and returns the fresh value "new fragment",
which differs from the first call's output. -/
theorem cachedCall_straddles_expiry :
    (cachedCall staleCacheSample 86300 (none, some 52, some 13)
        (.ok "fresh")).1 = .ok "old fragment" ∧
    (cachedCall (cachedCall staleCacheSample 86300 (none, some 52, some 13)
          (.ok "fresh")).2.1 86500 (none, some 52, some 13)
        (.ok "new fragment")).1 = .ok "new fragment" ∧
    (86500 : Int) - 86300 < ttl ∧
    (Except.ok "old fragment" : Except PyErr String) ≠ .ok "new fragment" := by
  refine ⟨rfl, rfl, by decide, by simp⟩

/-- Claim C6 (amended): when the first of the two identical-keyed calls
does not hit a pre-existing cache entry (it computes a value and inserts
it), any second call with the same key strictly less than 24 hours after
the first returns the identical cached output, and the decorated body —
with its expensive fetch — runs exactly once across the two calls.
(Byte-identicality can fail only when the entry consulted was created by
an earlier call and expires between the two calls, as in the
counterexample.) -/
theorem cachedCall_hit_within_ttl {V : Type} [DecidableEq V]
    (entries : List (CacheItem V)) (k : CacheKey) (t1 t2 : Int) (v : V)
    (comp2 : Except PyErr V)
    (hmiss : entries.find?
      (fun e => decide (e.key = k) && decide (t1 < e.expire)) = none)
    (hlt : t2 < t1 + ttl) :
    (cachedCall entries t1 k (.ok v)).1 = .ok v ∧
    (cachedCall (cachedCall entries t1 k (.ok v)).2.1 t2 k comp2).1 = .ok v ∧
    (cachedCall entries t1 k (.ok v)).2.2 +
      (cachedCall (cachedCall entries t1 k (.ok v)).2.1 t2 k comp2).2.2 = 1 := by
  have h1 : cachedCall entries t1 k (.ok v)
      = (.ok v, ⟨k, v, t1 + ttl⟩ :: entries, 1) := by
    simp only [cachedCall, hmiss]
  have h2 : cachedCall (⟨k, v, t1 + ttl⟩ :: entries) t2 k comp2
      = (.ok v, ⟨k, v, t1 + ttl⟩ :: entries, 0) := by
    simp [cachedCall, List.find?_cons, hlt]
  rw [h1]
  refine ⟨rfl, by rw [h2], ?_⟩
  rw [h2]
  rfl

/-- Witness for `cachedCall_hit_within_ttl`: starting from an empty cache,
a call at timer 0 computes and caches "plot"; a second identical-keyed
call at timer 3600 returns the same "plot" without running the body
again. -/
theorem cachedCall_hit_within_ttl_witness :
    (cachedCall ([] : List (CacheItem String)) 0 (none, some 52, some 13)
        (.ok "plot")).1 = .ok "plot" ∧
    (cachedCall (cachedCall ([] : List (CacheItem String)) 0
          (none, some 52, some 13) (.ok "plot")).2.1 3600
        (none, some 52, some 13) (.ok "other")).1 = .ok "plot" ∧
    (cachedCall ([] : List (CacheItem String)) 0 (none, some 52, some 13)
        (.ok "plot")).2.2 +
      (cachedCall (cachedCall ([] : List (CacheItem String)) 0
          (none, some 52, some 13) (.ok "plot")).2.1 3600
        (none, some 52, some 13) (.ok "other")).2.2 = 1 :=
  cachedCall_hit_within_ttl [] (none, some 52, some 13) 0 3600 "plot"
    (.ok "other") rfl (by decide)
